import Mathlib

/-!
# Verification of the ARE intermittent benefit calculator

Shallow embedding of the calculation engine of `App.py`:
the class `AREIntermittent` (static method `calculer_are`), the function
`calcul_jni`, and the monthly-simulation arithmetic of the
"Simulateur Mensuel" page (`jours_indem`, `are_mensuelle`).

Money and hour quantities are embedded as rationals (`ℚ`); Python's
`round(x, 2)` is embedded as `round2` (round-half-up to 2 decimals);
the exception a Python dict lookup `PARAMS[annexe]` can raise is embedded
by returning `Except PyError _`.
-/

namespace ARE

/-- The per-category constant set, one record per key of the Python dict
`AREIntermittent.PARAMS`. Field names follow the dict keys. -/
structure CatParams where
  seuil_salaire : ℚ
  taux_salaire_inf : ℚ
  taux_salaire_sup : ℚ
  seuil_heures : ℚ
  taux_heures_inf : ℚ
  taux_heures_sup : ℚ
  partie_c : ℚ
  plancher : ℚ
deriving DecidableEq

/-- `AREIntermittent.AJ_MINIMALE`. -/
def AJ_MINIMALE : ℚ := 31.71

/-- `AREIntermittent.SMIC_JOURNALIER`. -/
def SMIC_JOURNALIER : ℚ := 60.0

/-- `AREIntermittent.PARAMS[8]` (techniciens). -/
def params_a8 : CatParams :=
  { seuil_salaire := 14400, taux_salaire_inf := 0.42, taux_salaire_sup := 0.05
    seuil_heures := 720, taux_heures_inf := 0.26, taux_heures_sup := 0.08
    partie_c := 0.40, plancher := 38.34 }

/-- `AREIntermittent.PARAMS[10]` (artistes). -/
def params_a10 : CatParams :=
  { seuil_salaire := 13700, taux_salaire_inf := 0.36, taux_salaire_sup := 0.05
    seuil_heures := 690, taux_heures_inf := 0.26, taux_heures_sup := 0.08
    partie_c := 0.70, plancher := 44.43 }

/-- The dict `AREIntermittent.PARAMS`: defined for keys 8 and 10 only.
A lookup `PARAMS[annexe]` on any other key raises `KeyError` in Python,
embedded here by `none`. -/
def PARAMS (annexe : ℤ) : Option CatParams :=
  if annexe = 8 then some params_a8
  else if annexe = 10 then some params_a10
  else none

/-- The exceptions the embedded code can raise. `keyError` is the
`KeyError` of the dict lookup `AREIntermittent.PARAMS[annexe]`. -/
inductive PyError where
  | keyError : PyError
deriving DecidableEq

/-- Python's `round(x, 2)`: round to two decimal places
(half-up on rationals). -/
def round2 (x : ℚ) : ℚ := (round (x * 100) : ℤ) / 100

/-- The `details` dict of the result: its key set depends on the branch
taken. `artiste` holds keys `sjr`, `partie_sjr_70pc`, `partie_a_grok_final`,
`partie_b_grok_cachets`, `diviseur_annualisation_applique`,
`are_nette_avant_diviseur`; `technicien` holds keys `partie_a`, `partie_b`,
`partie_c` plus `diviseur_annualisation_applique = "Non applicable"`
(a string constant, carried by the constructor itself); `empty` is the
`{}` of the unsupported-category return. -/
inductive Details where
  | empty : Details
  | artiste (sjr partie_sjr_70pc partie_a_grok_final partie_b_grok_cachets
      diviseur_annualisation_applique are_nette_avant_diviseur : ℚ) : Details
  | technicien (partie_a partie_b partie_c : ℚ) : Details
deriving DecidableEq

/-- The result dict `{"net": ..., "brut": ..., "details": ...}`. -/
structure ARE_Result where
  net : ℚ
  brut : ℚ
  details : Details
deriving DecidableEq

/-- The SJR computation of `calculer_are`:
`sjr = 0`, then `if jours_reference > 0: sjr = salaire / jours_reference`. -/
def sjr_calc (salaire : ℚ) (jours_reference : ℤ) : ℚ :=
  if jours_reference > 0 then salaire / (jours_reference : ℚ) else 0

/-- Annexe 10, `partie_a_grok = max(AJ_MINIMALE, 0.70 * sjr)`. -/
def partie_a_grok (sjr : ℚ) : ℚ := max AJ_MINIMALE (0.70 * sjr)

/-- Annexe 10, `partie_b_grok = 12.27 * total_cachets_12mois / 12`. -/
def partie_b_grok (total_cachets_12mois : ℚ) : ℚ := 12.27 * total_cachets_12mois / 12

/-- Annexe 10 gross: `are_brute = max(partie_a_grok + partie_b_grok, plancher)`. -/
def are_brute_a10 (p : CatParams) (sjr total_cachets_12mois : ℚ) : ℚ :=
  max (partie_a_grok sjr + partie_b_grok total_cachets_12mois) p.plancher

/-- Annexe 8, partie A (salaire): the two-branch `if/else` on the salary
threshold of `calculer_are`. -/
def a_technicien (p : CatParams) (salaire : ℚ) : ℚ :=
  if salaire ≤ p.seuil_salaire then
    AJ_MINIMALE * p.taux_salaire_inf * salaire / 5000
  else
    AJ_MINIMALE * (p.taux_salaire_inf * p.seuil_salaire +
      p.taux_salaire_sup * (salaire - p.seuil_salaire)) / 5000

/-- Annexe 8, partie B (heures): the two-branch `if/else` on the hours
threshold of `calculer_are`. -/
def b_technicien (p : CatParams) (heures : ℚ) : ℚ :=
  if heures ≤ p.seuil_heures then
    AJ_MINIMALE * p.taux_heures_inf * heures / 507
  else
    AJ_MINIMALE * (p.taux_heures_inf * p.seuil_heures +
      p.taux_heures_sup * (heures - p.seuil_heures)) / 507

/-- Annexe 8, partie C (fixe): `c = AJ_MINIMALE * partie_c`. -/
def c_technicien (p : CatParams) : ℚ := AJ_MINIMALE * p.partie_c

/-- Annexe 8 gross: `are_brute = max(a + b + c, plancher)`. -/
def are_brute_a8 (p : CatParams) (salaire heures : ℚ) : ℚ :=
  max (a_technicien p salaire + b_technicien p heures + c_technicien p) p.plancher

/-- Net conversion applied to the gross:
`are_brute * 0.933 if are_brute > SMIC_JOURNALIER else are_brute`. -/
def are_nette_calc (are_brute : ℚ) : ℚ :=
  if are_brute > SMIC_JOURNALIER then are_brute * 0.933 else are_brute

/-- `diviseur_annualisation = 1.76` (applied to annexe 10 only). -/
def diviseur_annualisation : ℚ := 1.76

/-- `AREIntermittent.calculer_are(annexe, salaire, heures, cachets, jours)`.

The first statement of the body, `params = AREIntermittent.PARAMS[annexe]`,
raises `KeyError` on any key other than 8 and 10, embedded as
`Except.error .keyError`; the function's own `else`-branch for an
unsupported annexe (`st.error(...)` then return of the zeroed dict) is
therefore unreachable, but is kept, faithful to the source.
The rounding of the reported figures and the `details` keys follow the
source line by line. -/
def calculer_are (annexe : ℤ) (salaire_reference_brut_12mois heures_travaillees_12mois
    total_cachets_12mois : ℚ) (jours_reference : ℤ) : Except PyError ARE_Result :=
  match PARAMS annexe with
  | none => .error .keyError
  | some params =>
    let sjr := sjr_calc salaire_reference_brut_12mois jours_reference
    if annexe = 10 then
      let pa := partie_a_grok sjr
      let pb := partie_b_grok total_cachets_12mois
      let are_brute := are_brute_a10 params sjr total_cachets_12mois
      let are_nette := are_nette_calc are_brute
      let are_nette_journaliere_final := are_nette / diviseur_annualisation
      .ok { net := round2 are_nette_journaliere_final
            brut := round2 are_brute
            details := .artiste (round2 sjr) (round2 (0.70 * sjr)) (round2 pa)
              (round2 pb) diviseur_annualisation (round2 are_nette) }
    else if annexe = 8 then
      let a := a_technicien params salaire_reference_brut_12mois
      let b := b_technicien params heures_travaillees_12mois
      let c := c_technicien params
      let are_brute := are_brute_a8 params salaire_reference_brut_12mois
        heures_travaillees_12mois
      let are_nette := are_nette_calc are_brute
      .ok { net := round2 are_nette
            brut := round2 are_brute
            details := .technicien (round2 a) (round2 b) (round2 c) }
    else
      .ok { net := 0, brut := 0, details := .empty }

/-- `calcul_jni(annexe, heures_totales, jours_mois)`: the non-indemnified
day count, `min(ceil(h*1.3/10), jours)` for annexe 10 and
`min(ceil(h*1.4/8), jours)` for every other annexe. -/
def calcul_jni (annexe : ℤ) (heures_totales : ℚ) (jours_mois : ℤ) : ℤ :=
  if annexe = 10 then min ⌈heures_totales * 1.3 / 10⌉ jours_mois
  else min ⌈heures_totales * 1.4 / 8⌉ jours_mois

/-- Simulateur Mensuel: `jours_indem = max(jours_mois - jni, 0)`. -/
def jours_indem (annexe : ℤ) (heures_totales : ℚ) (jours_mois : ℤ) : ℤ :=
  max (jours_mois - calcul_jni annexe heures_totales jours_mois) 0

/-- Simulateur Mensuel: `are_mensuelle = are_journaliere_override * jours_indem`. -/
def are_mensuelle (are_journaliere_override : ℚ) (annexe : ℤ)
    (heures_totales : ℚ) (jours_mois : ℤ) : ℚ :=
  are_journaliere_override * (jours_indem annexe heures_totales jours_mois : ℚ)

/-- Spec-side form of the Technician salary part (for the refinement claim):
`salaryPart = minimumDailyAllowance × (belowRate × min(salary, threshold) +
aboveRate × max(0, salary − threshold)) / 5000`. -/
def salaryPart_spec (salaire : ℚ) : ℚ :=
  AJ_MINIMALE * (0.42 * min salaire 14400 + 0.05 * max 0 (salaire - 14400)) / 5000

/-- Spec-side form of the Technician hours part (for the refinement claim):
`hoursPart = minimumDailyAllowance × (belowRate × min(hours, threshold) +
aboveRate × max(0, hours − threshold)) / 507`. -/
def hoursPart_spec (heures : ℚ) : ℚ :=
  AJ_MINIMALE * (0.26 * min heures 720 + 0.08 * max 0 (heures - 720)) / 507

/-- Spec-side form of the Technician gross (for the refinement claim):
`grossDaily = max(salaryPart + hoursPart + fixedPart, technicianFloor)`. -/
def grossDaily_spec (salaire heures : ℚ) : ℚ :=
  max (salaryPart_spec salaire + hoursPart_spec heures + AJ_MINIMALE * 0.40) 38.34

/-! ## Helper lemmas -/

/-- `round2` is monotone. -/
lemma round2_mono {x y : ℚ} (h : x ≤ y) : round2 x ≤ round2 y := by
  unfold round2
  have h1 : round (x * 100) ≤ round (y * 100) := by
    rw [round_eq, round_eq]
    exact Int.floor_le_floor (by linarith)
  have h2 : ((round (x * 100) : ℤ) : ℚ) ≤ ((round (y * 100) : ℤ) : ℚ) :=
    Int.cast_le.mpr h1
  exact (div_le_div_iff_of_pos_right (by norm_num)).mpr h2

/-- Evaluation of `calculer_are` on annexe 8: the technician branch. -/
lemma calculer_are_eq_a8 (s h c : ℚ) (j : ℤ) :
    calculer_are 8 s h c j =
      .ok { net := round2 (are_nette_calc (are_brute_a8 params_a8 s h))
            brut := round2 (are_brute_a8 params_a8 s h)
            details := .technicien (round2 (a_technicien params_a8 s))
              (round2 (b_technicien params_a8 h)) (round2 (c_technicien params_a8)) } := by
  rfl

/-- Evaluation of `calculer_are` on annexe 10: the artist branch. -/
lemma calculer_are_eq_a10 (s h c : ℚ) (j : ℤ) :
    calculer_are 10 s h c j =
      .ok { net := round2 (are_nette_calc (are_brute_a10 params_a10 (sjr_calc s j) c) /
              diviseur_annualisation)
            brut := round2 (are_brute_a10 params_a10 (sjr_calc s j) c)
            details := .artiste (round2 (sjr_calc s j)) (round2 (0.70 * sjr_calc s j))
              (round2 (partie_a_grok (sjr_calc s j))) (round2 (partie_b_grok c))
              diviseur_annualisation
              (round2 (are_nette_calc (are_brute_a10 params_a10 (sjr_calc s j) c))) } := by
  rfl

/-- The net conversion never increases a non-negative gross. -/
lemma are_nette_calc_le {b : ℚ} (hb : 0 ≤ b) : are_nette_calc b ≤ b := by
  unfold are_nette_calc
  split <;> linarith

/-- The net conversion preserves non-negativity. -/
lemma are_nette_calc_nonneg {b : ℚ} (hb : 0 ≤ b) : 0 ≤ are_nette_calc b := by
  unfold are_nette_calc
  split <;> linarith

/-- The annexe 8 gross is bounded below by the plancher. -/
lemma are_brute_a8_ge (p : CatParams) (s h : ℚ) :
    p.plancher ≤ are_brute_a8 p s h := le_max_right _ _

/-- The annexe 10 gross is bounded below by the plancher. -/
lemma are_brute_a10_ge (p : CatParams) (sjr c : ℚ) :
    p.plancher ≤ are_brute_a10 p sjr c := le_max_right _ _

/-- The Technician salary part is monotone in the salary. -/
lemma a_technicien_mono {s1 s2 : ℚ} (h : s1 ≤ s2) :
    a_technicien params_a8 s1 ≤ a_technicien params_a8 s2 := by
  simp only [a_technicien, params_a8, AJ_MINIMALE]
  split_ifs <;> linarith

/-- The Technician gross is monotone in the salary. -/
lemma are_brute_a8_mono_salaire {s1 s2 : ℚ} (heures : ℚ) (h : s1 ≤ s2) :
    are_brute_a8 params_a8 s1 heures ≤ are_brute_a8 params_a8 s2 heures :=
  max_le_max (add_le_add_right (add_le_add_right (a_technicien_mono h) _) _) le_rfl

/-- The daily reference wage is monotone in the salary. -/
lemma sjr_calc_mono {s1 s2 : ℚ} (j : ℤ) (h : s1 ≤ s2) :
    sjr_calc s1 j ≤ sjr_calc s2 j := by
  unfold sjr_calc
  split_ifs with hj
  · have hjq : (0 : ℚ) < (j : ℚ) := by exact_mod_cast hj
    exact (div_le_div_iff_of_pos_right hjq).mpr h
  · exact le_rfl

/-- The Artist partie A is monotone in the daily reference wage. -/
lemma partie_a_grok_mono {x y : ℚ} (h : x ≤ y) :
    partie_a_grok x ≤ partie_a_grok y :=
  max_le_max le_rfl (mul_le_mul_of_nonneg_left h (by norm_num))

/-- The Artist gross is monotone in the daily reference wage. -/
lemma are_brute_a10_mono_sjr {x y : ℚ} (c : ℚ) (h : x ≤ y) :
    are_brute_a10 params_a10 x c ≤ are_brute_a10 params_a10 y c :=
  max_le_max (add_le_add_right (partie_a_grok_mono h) _) le_rfl

/-! ## Claims -/

/-- C1: the code contradicts the claim. The claim (and the source's own
unsupported-annexe branch, plus its docstring promising a returned dict)
says an unsupported annexe such as 7 yields the zeroed result
`{net: 0, brut: 0, details: {}}` without raising; but the lookup
`PARAMS[annexe]` on the very first line of `calculer_are` raises
`KeyError` before that branch can run, so annexe 7 raises and never
returns the zeroed dict. -/
theorem C1_unsupported_annexe_raises :
    calculer_are 7 1000 100 10 365 = .error .keyError ∧
    calculer_are 7 1000 100 10 365 ≠ .ok { net := 0, brut := 0, details := .empty } := by
  have h : calculer_are 7 1000 100 10 365 = .error .keyError := rfl
  exact ⟨h, by rw [h]; exact fun hcontra => Except.noConfusion hcontra⟩

/-- C2 counterexample: at the Technician input salary=15000, hours=800,
referenceDays=365, the code returns partA=38.55, partB=12.11, partC=12.68,
brut=63.34, net=59.10 — not the claimed 38.30 / 12.06 / 12.68 / 63.04 /
58.82. -/
theorem C2_counterexample :
    calculer_are 8 15000 800 0 365 =
      .ok { net := 59.10, brut := 63.34, details := .technicien 38.55 12.11 12.68 } ∧
    (38.55 : ℚ) ≠ 38.30 ∧ (12.11 : ℚ) ≠ 12.06 ∧
    (63.34 : ℚ) ≠ 63.04 ∧ (59.10 : ℚ) ≠ 58.82 := by
  refine ⟨?_, by norm_num, by norm_num, by norm_num, by norm_num⟩
  rw [calculer_are_eq_a8]
  norm_num [round2, round_eq, are_nette_calc, are_brute_a8, a_technicien, b_technicien,
    c_technicien, params_a8, AJ_MINIMALE, SMIC_JOURNALIER, max_def, min_def]

/-- C2 (amended): for the Technician input salary=15000, hours=800,
referenceDays=365 (cachets irrelevant), `calculer_are` yields
partA = 38.55, partB = 12.11, partC = 12.68, gross = 63.34, and, the
gross exceeding the social threshold 60, net = 59.10 with no
annualization divisor applied. -/
theorem C2_technician_scenario :
    calculer_are 8 15000 800 0 365 =
      .ok { net := 59.10, brut := 63.34, details := .technicien 38.55 12.11 12.68 } := by
  rw [calculer_are_eq_a8]
  norm_num [round2, round_eq, are_nette_calc, are_brute_a8, a_technicien, b_technicien,
    c_technicien, params_a8, AJ_MINIMALE, SMIC_JOURNALIER, max_def, min_def]

/-- C4 counterexample: at the Artist input salary=8536.59, hours=732,
cachets=61, referenceDays=319, the code returns net-before-divisor 87.78
and final net 49.87 — not the claimed 87.74 and 49.85 (off by more than
2-decimal rounding). -/
theorem C4_counterexample :
    calculer_are 10 8536.59 732 61 319 =
      .ok { net := 49.87, brut := 94.08,
            details := .artiste 26.76 18.73 31.71 62.37 1.76 87.78 } ∧
    (87.78 : ℚ) ≠ 87.74 ∧ (49.87 : ℚ) ≠ 49.85 := by
  refine ⟨?_, by norm_num, by norm_num⟩
  rw [calculer_are_eq_a10]
  norm_num [round2, round_eq, are_nette_calc, are_brute_a10, partie_a_grok, partie_b_grok,
    sjr_calc, diviseur_annualisation, params_a10, AJ_MINIMALE, SMIC_JOURNALIER,
    max_def, min_def]

/-- C4 (amended): for the Artist input salary=8536.59, hours=732,
cachets=61, referenceDays=319, `calculer_are` yields sjr = 26.76,
partA = max(31.71, 18.73) = 31.71, partB = 62.37, gross = 94.08,
net before the divisor = 87.78, and final net = 87.78 / 1.76 ≈ 49.87. -/
theorem C4_artist_scenario :
    calculer_are 10 8536.59 732 61 319 =
      .ok { net := 49.87, brut := 94.08,
            details := .artiste 26.76 18.73 31.71 62.37 1.76 87.78 } := by
  rw [calculer_are_eq_a10]
  norm_num [round2, round_eq, are_nette_calc, are_brute_a10, partie_a_grok, partie_b_grok,
    sjr_calc, diviseur_annualisation, params_a10, AJ_MINIMALE, SMIC_JOURNALIER,
    max_def, min_def]

/-- C7: for non-negative hours and a positive month length, `calcul_jni`
computes ceil(hours×1.3/10) for annexe 10 and ceil(hours×1.4/8) for
annexe 8, capped at (hence never exceeding) the days in the month; and at
the Technician scenario hours=143, daysInMonth=30 it gives 26
non-indemnified days, 4 indemnifiable days, and a monthly benefit of
4 × the override daily benefit. -/
theorem C7_jni_formula_and_scenario (h : ℚ) (j : ℤ) (hh : 0 ≤ h) (hj : 0 < j) :
    calcul_jni 10 h j = min ⌈h * 1.3 / 10⌉ j ∧
    calcul_jni 8 h j = min ⌈h * 1.4 / 8⌉ j ∧
    calcul_jni 10 h j ≤ j ∧ calcul_jni 8 h j ≤ j ∧
    calcul_jni 8 143 30 = 26 ∧ jours_indem 8 143 30 = 4 ∧
    ∀ o : ℚ, are_mensuelle o 8 143 30 = o * 4 := by
  have h26 : calcul_jni 8 143 30 = 26 := by
    have hc : ⌈(143 : ℚ) * 1.4 / 8⌉ = 26 := by
      rw [Int.ceil_eq_iff]; norm_num
    rw [calcul_jni, if_neg (by norm_num), hc]
    norm_num
  have h4 : jours_indem 8 143 30 = 4 := by
    rw [jours_indem, h26]; rfl
  refine ⟨rfl, rfl, min_le_right _ _, min_le_right _ _, h26, h4, ?_⟩
  intro o
  rw [are_mensuelle, h4]
  norm_num

/-- Witness for C7 at hours = 143, daysInMonth = 30. -/
theorem C7_witness : calcul_jni 8 143 30 = 26 ∧ jours_indem 8 143 30 = 4 :=
  ⟨(C7_jni_formula_and_scenario 143 30 (by norm_num) (by norm_num)).2.2.2.2.1,
   (C7_jni_formula_and_scenario 143 30 (by norm_num) (by norm_num)).2.2.2.2.2.1⟩

/-- C10: `calcul_jni` validates no category: every annexe other than 10
(including invalid ones such as 7 or 9) takes the `else` branch, the
Technician formula min(ceil(hours×1.4/8), daysInMonth). -/
theorem C10_no_category_validation (annexe : ℤ) (h : ℚ) (j : ℤ) (hne : annexe ≠ 10) :
    calcul_jni annexe h j = min ⌈h * 1.4 / 8⌉ j := by
  unfold calcul_jni
  rw [if_neg hne]

/-- Witness for C10 at the invalid annexe 7. -/
theorem C10_witness :
    calcul_jni 7 143 30 = min ⌈(143 : ℚ) * 1.4 / 8⌉ 30 :=
  C10_no_category_validation 7 143 30 (by norm_num)

/-- C3 counterexample: for the Artist input salary=0, hours=0, cachets=0,
referenceDays=365, the gross is the floor 44.43 ≤ 60 yet the net is
25.24 ≠ 44.43, because the annexe 10 annualization divisor (1.76) is
applied even when the social deduction is not. -/
theorem C3_counterexample :
    calculer_are 10 0 0 0 365 =
      .ok { net := 25.24, brut := 44.43, details := .artiste 0 0 31.71 0 1.76 44.43 } ∧
    (44.43 : ℚ) ≤ 60 ∧ (25.24 : ℚ) ≠ 44.43 := by
  refine ⟨?_, by norm_num, by norm_num⟩
  rw [calculer_are_eq_a10]
  norm_num [round2, round_eq, are_nette_calc, are_brute_a10, partie_a_grok, partie_b_grok,
    sjr_calc, diviseur_annualisation, params_a10, AJ_MINIMALE, SMIC_JOURNALIER,
    max_def, min_def]

/-- C3 (amended): for every input with a supported category, the returned
net is at most the returned gross; equality whenever the gross is at most
the 60 social threshold holds for the Technician branch (annexe 8), but
not for the Artist branch, whose net is additionally divided by the 1.76
annualization divisor. -/
theorem C3_net_le_gross (annexe : ℤ) (s h c : ℚ) (j : ℤ) (r : ARE_Result)
    (hsup : annexe = 8 ∨ annexe = 10)
    (hok : calculer_are annexe s h c j = .ok r) :
    r.net ≤ r.brut ∧
    (annexe = 8 → are_brute_a8 params_a8 s h ≤ SMIC_JOURNALIER → r.net = r.brut) := by
  rcases hsup with rfl | rfl
  · rw [calculer_are_eq_a8] at hok
    cases Except.ok.inj hok
    have hB : (38.34 : ℚ) ≤ are_brute_a8 params_a8 s h := by
      simpa [params_a8] using are_brute_a8_ge params_a8 s h
    constructor
    · exact round2_mono (are_nette_calc_le (by linarith))
    · intro _ hle
      have : are_nette_calc (are_brute_a8 params_a8 s h) = are_brute_a8 params_a8 s h := by
        rw [are_nette_calc, if_neg (not_lt.mpr hle)]
      simp only [this]
  · rw [calculer_are_eq_a10] at hok
    cases Except.ok.inj hok
    have hB : (44.43 : ℚ) ≤ are_brute_a10 params_a10 (sjr_calc s j) c := by
      simpa [params_a10] using are_brute_a10_ge params_a10 (sjr_calc s j) c
    have hn0 : 0 ≤ are_nette_calc (are_brute_a10 params_a10 (sjr_calc s j) c) :=
      are_nette_calc_nonneg (by linarith)
    have hn1 : are_nette_calc (are_brute_a10 params_a10 (sjr_calc s j) c) ≤
        are_brute_a10 params_a10 (sjr_calc s j) c := are_nette_calc_le (by linarith)
    constructor
    · refine round2_mono ?_
      have h176 : are_nette_calc (are_brute_a10 params_a10 (sjr_calc s j) c) /
          diviseur_annualisation ≤
          are_nette_calc (are_brute_a10 params_a10 (sjr_calc s j) c) := by
        rw [diviseur_annualisation, div_le_iff₀ (by norm_num)]
        linarith
      exact le_trans h176 hn1
    · intro hcontra
      exact absurd hcontra (by norm_num)

/-- Witness for C3 at the Technician scenario input. -/
theorem C3_witness :
    round2 (are_nette_calc (are_brute_a8 params_a8 15000 800)) ≤
      round2 (are_brute_a8 params_a8 15000 800) :=
  (C3_net_le_gross 8 15000 800 0 365 _ (Or.inl rfl) (calculer_are_eq_a8 15000 800 0 365)).1

/-- C5: the two-branch `if/else` of the Technician branch coincides, for
non-negative salary and hours, with the spec's piecewise-linear min/max
form `max(AJ×(0.42×min(s,14400)+0.05×max(0,s−14400))/5000 +
AJ×(0.26×min(h,720)+0.08×max(0,h−720))/507 + AJ×0.40, 38.34)`. -/
theorem C5_technician_matches_spec_form (s h : ℚ) (hs : 0 ≤ s) (hh : 0 ≤ h) :
    are_brute_a8 params_a8 s h = grossDaily_spec s h := by
  have ha : a_technicien params_a8 s = salaryPart_spec s := by
    simp only [a_technicien, salaryPart_spec, params_a8]
    split_ifs with hc
    · rw [min_eq_left hc, max_eq_left (by linarith)]
      ring
    · rw [min_eq_right (le_of_not_le hc), max_eq_right (by linarith [lt_of_not_le hc])]
  have hb : b_technicien params_a8 h = hoursPart_spec h := by
    simp only [b_technicien, hoursPart_spec, params_a8]
    split_ifs with hc
    · rw [min_eq_left hc, max_eq_left (by linarith)]
      ring
    · rw [min_eq_right (le_of_not_le hc), max_eq_right (by linarith [lt_of_not_le hc])]
  simp only [are_brute_a8, c_technicien, grossDaily_spec]
  rw [ha, hb]
  norm_num [params_a8]

/-- Witness for C5 at salary = 15000, hours = 800. -/
theorem C5_witness :
    are_brute_a8 params_a8 15000 800 = grossDaily_spec 15000 800 :=
  C5_technician_matches_spec_form 15000 800 (by norm_num) (by norm_num)

/-- C6: for every valid (non-negative) input with a supported category,
the returned gross daily benefit is at least the category floor:
38.34 for annexe 8 and 44.43 for annexe 10. -/
theorem C6_gross_at_least_floor (annexe : ℤ) (s h c : ℚ) (j : ℤ) (r : ARE_Result)
    (hs : 0 ≤ s) (hh : 0 ≤ h) (hc : 0 ≤ c)
    (hok : calculer_are annexe s h c j = .ok r) :
    (annexe = 8 → 38.34 ≤ r.brut) ∧ (annexe = 10 → 44.43 ≤ r.brut) := by
  constructor
  · rintro rfl
    rw [calculer_are_eq_a8] at hok
    cases Except.ok.inj hok
    calc (38.34 : ℚ) = round2 38.34 := by norm_num [round2, round_eq]
      _ ≤ round2 (are_brute_a8 params_a8 s h) :=
        round2_mono (by simpa [params_a8] using are_brute_a8_ge params_a8 s h)
  · rintro rfl
    rw [calculer_are_eq_a10] at hok
    cases Except.ok.inj hok
    calc (44.43 : ℚ) = round2 44.43 := by norm_num [round2, round_eq]
      _ ≤ round2 (are_brute_a10 params_a10 (sjr_calc s j) c) :=
        round2_mono (by simpa [params_a10] using are_brute_a10_ge params_a10 (sjr_calc s j) c)

/-- Witness for C6 at the two scenario inputs. -/
theorem C6_witness :
    (38.34 : ℚ) ≤ round2 (are_brute_a8 params_a8 15000 800) ∧
    (44.43 : ℚ) ≤ round2 (are_brute_a10 params_a10 (sjr_calc 8536.59 319) 61) :=
  ⟨(C6_gross_at_least_floor 8 15000 800 0 365 _ (by norm_num) (by norm_num) (by norm_num)
      (calculer_are_eq_a8 15000 800 0 365)).1 rfl,
   (C6_gross_at_least_floor 10 8536.59 732 61 319 _ (by norm_num) (by norm_num) (by norm_num)
      (calculer_are_eq_a10 8536.59 732 61 319)).2 rfl⟩

/-- C8: with the category and the other inputs fixed, increasing the
reference salary never decreases the returned gross daily benefit. -/
theorem C8_gross_monotone_in_salary (annexe : ℤ) (s1 s2 h c : ℚ) (j : ℤ)
    (r1 r2 : ARE_Result) (hsup : annexe = 8 ∨ annexe = 10) (hs : s1 ≤ s2)
    (h1 : calculer_are annexe s1 h c j = .ok r1)
    (h2 : calculer_are annexe s2 h c j = .ok r2) :
    r1.brut ≤ r2.brut := by
  rcases hsup with rfl | rfl
  · rw [calculer_are_eq_a8] at h1 h2
    cases Except.ok.inj h1
    cases Except.ok.inj h2
    exact round2_mono (are_brute_a8_mono_salaire h hs)
  · rw [calculer_are_eq_a10] at h1 h2
    cases Except.ok.inj h1
    cases Except.ok.inj h2
    exact round2_mono (are_brute_a10_mono_sjr c (sjr_calc_mono j hs))

/-- Witness for C8 at annexe 8, salaries 15000 ≤ 16000. -/
theorem C8_witness :
    round2 (are_brute_a8 params_a8 15000 800) ≤ round2 (are_brute_a8 params_a8 16000 800) :=
  C8_gross_monotone_in_salary 8 15000 16000 800 0 365 _ _ (Or.inl rfl) (by norm_num)
    (calculer_are_eq_a8 15000 800 0 365) (calculer_are_eq_a8 16000 800 0 365)

/-- C9: the daily reference wage is the guarded quotient — salary divided
by the reference days when these are positive, 0 otherwise — and
`calculer_are` is total on every supported category: it always returns a
result, never a division-by-zero error. -/
theorem C9_sjr_guard_and_totality (annexe : ℤ) (s h c : ℚ) (j : ℤ) :
    (0 < j → sjr_calc s j = s / (j : ℚ)) ∧
    (j ≤ 0 → sjr_calc s j = 0) ∧
    ((annexe = 8 ∨ annexe = 10) → ∃ r, calculer_are annexe s h c j = .ok r) := by
  refine ⟨fun hj => by rw [sjr_calc, if_pos hj],
    fun hj => by rw [sjr_calc, if_neg (not_lt.mpr hj)], ?_⟩
  rintro (rfl | rfl)
  · exact ⟨_, calculer_are_eq_a8 s h c j⟩
  · exact ⟨_, calculer_are_eq_a10 s h c j⟩

/-- Witness for C9: positive and non-positive reference days, and
totality at the Technician scenario input. -/
theorem C9_witness :
    sjr_calc 8536.59 319 = 8536.59 / (319 : ℚ) ∧
    sjr_calc 8536.59 (-5) = 0 ∧
    ∃ r, calculer_are 8 15000 800 0 365 = .ok r :=
  ⟨(C9_sjr_guard_and_totality 8 8536.59 0 0 319).1 (by norm_num),
   (C9_sjr_guard_and_totality 8 8536.59 0 0 (-5)).2.1 (by norm_num),
   (C9_sjr_guard_and_totality 8 15000 800 0 365).2.2 (Or.inl rfl)⟩

end ARE
